import Mathlib

/-!
Verification of the DOMES CLI wire-framing protocol and OTA update engine
(`src/tools/domes-cli/src/transport/frame.rs`, `src/transport/mod.rs`,
`src/commands/ota.rs`), as a shallow embedding: bytes are `Nat` values
(with explicit `< 256` bounds where the Rust types guarantee them),
byte buffers are `List Nat`, fallible functions return `Except`, and the
streaming decoder is an explicit state-passing function.
-/

deriving instance DecidableEq for Except

namespace Domes

/-! ## Frame codec (`transport/frame.rs`) -/

/-- Frame start marker byte 0 (`START_BYTE_0`). -/
def START_BYTE_0 : Nat := 0xAA

/-- Frame start marker byte 1 (`START_BYTE_1`). -/
def START_BYTE_1 : Nat := 0x55

/-- Maximum payload size (`MAX_PAYLOAD_SIZE`). -/
def MAX_PAYLOAD_SIZE : Nat := 1024

/-- Frame overhead: 2 start + 2 len + 1 type + 4 crc = 9 bytes (`FRAME_OVERHEAD`). -/
def FRAME_OVERHEAD : Nat := 9

/-- Little-endian bytes of a 16-bit value (`u16::to_le_bytes`). -/
def toLE2 (n : Nat) : List Nat := [n % 256, n / 256 % 256]

/-- Little-endian bytes of a 32-bit value (`u32::to_le_bytes`). -/
def toLE4 (n : Nat) : List Nat :=
  [n % 256, n / 256 % 256, n / 65536 % 256, n / 16777216 % 256]

/-- Read a 32-bit value from 4 little-endian bytes (`u32::from_le_bytes`). -/
def fromLE4 (l : List Nat) : Nat :=
  l.getD 0 0 + l.getD 1 0 * 256 + l.getD 2 0 * 65536 + l.getD 3 0 * 16777216

/-- One shift step of the reflected CRC-32 bit loop: shift right, and
xor the polynomial 0xEDB88320 when the low bit was set. -/
def crcShift (crc : Nat) : Nat :=
  if crc % 2 = 1 then (crc / 2) ^^^ 0xEDB88320 else crc / 2

/-- Iterate `crcShift`. -/
def crcShifts : Nat → Nat → Nat
  | 0, crc => crc
  | n + 1, crc => crcShifts n (crcShift crc)

/-- Absorb one byte into a CRC-32 accumulator: xor it in, then run the
8 shift steps. -/
def crcUpdateByte (crc b : Nat) : Nat := crcShifts 8 (crc ^^^ b)

/-- Absorb a byte sequence into a CRC-32 accumulator (the streaming
`Hasher::update` of the crc32fast crate; updating with `xs` then `ys`
equals one update with `xs ++ ys` since this is a left fold). -/
def crcUpdate (crc : Nat) (data : List Nat) : Nat := data.foldl crcUpdateByte crc

/-- CRC-32 (IEEE 802.3, reflected polynomial 0xEDB88320) of a byte
sequence, the value `Hasher::new()` + updates + `finalize()` computes:
initial accumulator 0xFFFFFFFF, final xor 0xFFFFFFFF. -/
def crc32 (data : List Nat) : Nat := crcUpdate 0xFFFFFFFF data ^^^ 0xFFFFFFFF

/-- Frame codec errors (`FrameError`). -/
inductive FrameError where
  | payloadTooLarge (size : Nat)
  | invalidLength (len : Nat)
  | crcMismatch (expected actual : Nat)
  deriving DecidableEq

/-- Encode a frame with the given type and payload (`encode_frame`).
The frame is accumulated by successive appends exactly as the Rust
builds its `Vec`: start bytes, length (little-endian, `1 + payload.len()`),
type, payload, CRC-32 of type-then-payload (little-endian). -/
def encode_frame (msg_type : Nat) (payload : List Nat) :
    Except FrameError (List Nat) :=
  if payload.length > MAX_PAYLOAD_SIZE then
    .error (.payloadTooLarge payload.length)
  else
    let length := 1 + payload.length
    let crc := crc32 ([msg_type] ++ payload)
    let frame : List Nat := []
    let frame := frame ++ [START_BYTE_0]
    let frame := frame ++ [START_BYTE_1]
    let frame := frame ++ toLE2 length
    let frame := frame ++ [msg_type]
    let frame := frame ++ payload
    let frame := frame ++ toLE4 crc
    .ok frame

/-- Decoded frame (`Frame`). -/
structure Frame where
  msg_type : Nat
  payload : List Nat
  deriving DecidableEq

/-- Frame decoder states (`DecoderState`). -/
inductive DecoderState where
  | waitStart0
  | waitStart1
  | waitLenLow
  | waitLenHigh
  | waitType
  | waitPayload
  | waitCrc
  | complete
  | error
  deriving DecidableEq

/-- Streaming frame decoder (`FrameDecoder`); `crc_bytes` models the
`[u8; 4]` buffer as a 4-element list written by `List.set`. -/
structure FrameDecoder where
  state : DecoderState
  length : Nat
  msg_type : Nat
  payload : List Nat
  crc_bytes : List Nat
  crc_index : Nat
  payload_index : Nat
  deriving DecidableEq

/-- Create a new frame decoder (`FrameDecoder::new`). -/
def FrameDecoder.new : FrameDecoder where
  state := .waitStart0
  length := 0
  msg_type := 0
  payload := []
  crc_bytes := [0, 0, 0, 0]
  crc_index := 0
  payload_index := 0

/-- Reset the decoder state (`FrameDecoder::reset`). -/
def FrameDecoder.reset (d : FrameDecoder) : FrameDecoder :=
  { d with
    state := .waitStart0
    length := 0
    msg_type := 0
    payload := []
    crc_bytes := [0, 0, 0, 0]
    crc_index := 0
    payload_index := 0 }

/-- Feed a byte to the decoder (`FrameDecoder::feed_byte`): returns the
updated decoder and `some result` when a complete frame is decoded or a
fault is detected, `none` otherwise. -/
def FrameDecoder.feed_byte (d : FrameDecoder) (byte : Nat) :
    FrameDecoder × Option (Except FrameError Frame) :=
  match d.state with
  | .waitStart0 =>
    if byte = START_BYTE_0 then
      ({ d with state := .waitStart1 }, none)
    else
      (d, none)
  | .waitStart1 =>
    if byte = START_BYTE_1 then
      ({ d with state := .waitLenLow }, none)
    else if byte = START_BYTE_0 then
      (d, none)
    else
      ({ d with state := .waitStart0 }, none)
  | .waitLenLow =>
    ({ d with length := byte, state := .waitLenHigh }, none)
  | .waitLenHigh =>
    let length := d.length ||| (byte <<< 8)
    if length = 0 ∨ length > MAX_PAYLOAD_SIZE + 1 then
      ({ d with length := length, state := DecoderState.error },
        some (.error (.invalidLength length)))
    else
      ({ d with length := length, state := .waitType }, none)
  | .waitType =>
    let payload_len := d.length - 1
    if payload_len = 0 then
      ({ d with
          msg_type := byte
          payload := []
          payload_index := 0
          state := .waitCrc
          crc_index := 0 }, none)
    else
      ({ d with
          msg_type := byte
          payload := []
          payload_index := 0
          state := .waitPayload }, none)
  | .waitPayload =>
    let payload_len := d.length - 1
    if d.payload_index + 1 ≥ payload_len then
      ({ d with
          payload := d.payload ++ [byte]
          payload_index := d.payload_index + 1
          state := .waitCrc
          crc_index := 0 }, none)
    else
      ({ d with
          payload := d.payload ++ [byte]
          payload_index := d.payload_index + 1 }, none)
  | .waitCrc =>
    let crc_bytes := d.crc_bytes.set d.crc_index byte
    if d.crc_index + 1 ≥ 4 then
      let received_crc := fromLE4 crc_bytes
      let calculated_crc := crc32 ([d.msg_type] ++ d.payload)
      if received_crc ≠ calculated_crc then
        ({ d with
            crc_bytes := crc_bytes
            crc_index := d.crc_index + 1
            state := .complete },
          some (.error (.crcMismatch calculated_crc received_crc)))
      else
        ({ d with
            crc_bytes := crc_bytes
            crc_index := d.crc_index + 1
            state := .complete
            payload := [] },
          some (.ok { msg_type := d.msg_type, payload := d.payload }))
    else
      ({ d with
          crc_bytes := crc_bytes
          crc_index := d.crc_index + 1 }, none)
  | .complete =>
    (d, none)
  | .error =>
    (d, none)

/-- Feed a byte sequence one byte at a time, collecting every produced
result in order (the driver loop of the decoder's callers and tests). -/
def FrameDecoder.feedBytes : FrameDecoder → List Nat →
    FrameDecoder × List (Except FrameError Frame)
  | d, [] => (d, [])
  | d, b :: rest =>
    let step := d.feed_byte b
    let next := step.1.feedBytes rest
    (next.1, step.2.toList ++ next.2)

/-! ## Transport chunk-size advertisement (`transport/mod.rs`) -/

/-- Default OTA chunk size for serial/TCP (`OTA_CHUNK_SIZE_DEFAULT`). -/
def OTA_CHUNK_SIZE_DEFAULT : Nat := 1016

/-- BLE OTA chunk size, smaller to fit within BLE MTU limits
(`OTA_CHUNK_SIZE_BLE`). -/
def OTA_CHUNK_SIZE_BLE : Nat := 400

/-- Transport backends implementing the `Transport` trait. -/
inductive TransportKind where
  | serial
  | tcp
  | ble
  deriving DecidableEq

/-- Maximum OTA chunk size advertised by each transport
(`Transport::max_ota_chunk_size`): the trait default for serial and TCP,
the BLE override for BLE. -/
def max_ota_chunk_size : TransportKind → Nat
  | .serial => OTA_CHUNK_SIZE_DEFAULT
  | .tcp => OTA_CHUNK_SIZE_DEFAULT
  | .ble => OTA_CHUNK_SIZE_BLE

/-! ## OTA update engine (`commands/ota.rs`)

The engine talks to the device only through `send_frame`/`receive_frame`
pairs, so the transport plus device are modelled as a stateful oracle
`σ → Nat → List Nat → σ × Frame` mapping each sent `(msg_type, payload)`
to the device's reply frame. Every model function also returns the list
of `(msg_type, payload)` messages it sent, so theorems can speak about
the wire traffic. The firmware digest is a parameter: the source computes
it with the external sha2 crate and no property here depends on its
value. -/

/-- OTA message types (`OtaMsgType`). -/
inductive OtaMsgType where
  | otaBegin
  | otaData
  | otaEnd
  | otaAck
  | otaAbort
  deriving DecidableEq

/-- Wire value of an OTA message type (`OtaMsgType as u8`). -/
def OtaMsgType.toU8 : OtaMsgType → Nat
  | .otaBegin => 0x01
  | .otaData => 0x02
  | .otaEnd => 0x03
  | .otaAck => 0x04
  | .otaAbort => 0x05

/-- Parse an OTA message type (`OtaMsgType::from_u8`). -/
def OtaMsgType.from_u8 : Nat → Option OtaMsgType
  | 0x01 => some .otaBegin
  | 0x02 => some .otaData
  | 0x03 => some .otaEnd
  | 0x04 => some .otaAck
  | 0x05 => some .otaAbort
  | _ => none

/-- OTA status codes (`OtaStatus`). -/
inductive OtaStatus where
  | ok
  | busy
  | flashError
  | verifyFailed
  | sizeMismatch
  | offsetMismatch
  | versionError
  | partitionError
  | aborted
  deriving DecidableEq

/-- Parse an OTA status byte (`OtaStatus::from_u8`); every value above 7
maps to `Aborted`. -/
def OtaStatus.from_u8 : Nat → OtaStatus
  | 0 => .ok
  | 1 => .busy
  | 2 => .flashError
  | 3 => .verifyFailed
  | 4 => .sizeMismatch
  | 5 => .offsetMismatch
  | 6 => .versionError
  | 7 => .partitionError
  | _ => .aborted

/-- OTA chunk size used by the engine (`OTA_CHUNK_SIZE` in `ota.rs`,
matching firmware kOtaChunkSize). -/
def OTA_CHUNK_SIZE : Nat := 1016

/-- SHA256 digest size (`SHA256_SIZE`). -/
def SHA256_SIZE : Nat := 32

/-- Version string max length (`VERSION_MAX_LEN`). -/
def VERSION_MAX_LEN : Nat := 32

/-- Failure outcomes of the OTA engine. The source reports these as
`anyhow` error messages; each constructor captures the data the
corresponding `bail!` formats into its message. `outOfFuel` is a model
artifact of the chunk loop's fuel parameter and is never produced when
the fuel is at least the firmware size. -/
inductive OtaError where
  | emptyFirmware
  | beginRejected (status : OtaStatus)
  | chunkRejected (offset : Nat) (status : OtaStatus)
  | endRejected (status : OtaStatus)
  | deviceAborted (reason : OtaStatus)
  | abortPayloadEmpty
  | ackTooShort (len : Nat)
  | unexpectedResponse (msg_type : Nat)
  | outOfFuel
  deriving DecidableEq

/-- Serialize an OTA_BEGIN payload (`serialize_ota_begin`):
`[u32 firmwareSize][32 bytes sha256][32 bytes version]`, the version
copied up to `VERSION_MAX_LEN - 1` bytes into a zeroed 32-byte buffer.
`version` is the byte string `version.as_bytes()`. -/
def serialize_ota_begin (firmware_size : Nat) (sha256 : List Nat)
    (version : List Nat) : List Nat :=
  let copy_len := min version.length (VERSION_MAX_LEN - 1)
  let version_bytes := version.take copy_len ++
    List.replicate (VERSION_MAX_LEN - copy_len) 0
  toLE4 firmware_size ++ sha256 ++ version_bytes

/-- Serialize an OTA_DATA payload (`serialize_ota_data`):
`[u32 offset][u16 length][data...]`. -/
def serialize_ota_data (offset : Nat) (data : List Nat) : List Nat :=
  toLE4 offset ++ toLE2 data.length ++ data

/-- Deserialize an OTA_ACK payload (`deserialize_ota_ack`):
`[u8 status][u32 nextOffset]`. -/
def deserialize_ota_ack (payload : List Nat) :
    Except OtaError (OtaStatus × Nat) :=
  if payload.length < 5 then
    .error (.ackTooShort payload.length)
  else
    .ok (OtaStatus.from_u8 (payload.getD 0 0),
      fromLE4 [payload.getD 1 0, payload.getD 2 0,
        payload.getD 3 0, payload.getD 4 0])

/-- Deserialize an OTA_ABORT payload (`deserialize_ota_abort`). -/
def deserialize_ota_abort (payload : List Nat) : Except OtaError OtaStatus :=
  if payload.length = 0 then
    .error .abortPayloadEmpty
  else
    .ok (OtaStatus.from_u8 (payload.getD 0 0))

/-- Send a frame and wait for ACK (`send_and_wait_ack`): deliver the
message to the device oracle, then classify its reply — an Ack is
deserialized, an Abort or any other type is an error. Returns the new
oracle state, the sent messages, and the outcome. -/
def send_and_wait_ack {σ : Type} (dev : σ → Nat → List Nat → σ × Frame)
    (s : σ) (msg_type : OtaMsgType) (payload : List Nat) :
    σ × List (Nat × List Nat) × Except OtaError (OtaStatus × Nat) :=
  let step := dev s msg_type.toU8 payload
  let sent := [(msg_type.toU8, payload)]
  match OtaMsgType.from_u8 step.2.msg_type with
  | some .otaAck => (step.1, sent, deserialize_ota_ack step.2.payload)
  | some .otaAbort =>
    match deserialize_ota_abort step.2.payload with
    | .ok reason => (step.1, sent, .error (.deviceAborted reason))
    | .error err => (step.1, sent, .error err)
  | _ => (step.1, sent, .error (.unexpectedResponse step.2.msg_type))

/-- The firmware-chunk loop of `ota_flash`: while `offset < total`, slice
the next `min OTA_CHUNK_SIZE (total - offset)` bytes, send them as an
OTA_DATA message, and stop on any non-OK acknowledgement. `fuel` bounds
the number of iterations for structural recursion; each iteration
advances `offset` by at least one byte, so `fuel = firmware.length`
(as passed by `ota_flash`) can never run out. -/
def send_chunks {σ : Type} (dev : σ → Nat → List Nat → σ × Frame) :
    Nat → σ → List Nat → Nat →
    σ × List (Nat × List Nat) × Except OtaError Unit
  | 0, s, firmware, offset =>
    if offset < firmware.length then (s, [], .error .outOfFuel)
    else (s, [], .ok ())
  | fuel + 1, s, firmware, offset =>
    if offset < firmware.length then
      let chunk_size := min OTA_CHUNK_SIZE (firmware.length - offset)
      let chunk := (firmware.drop offset).take chunk_size
      let data_payload := serialize_ota_data offset chunk
      let step := send_and_wait_ack dev s .otaData data_payload
      match step.2.2 with
      | .error err => (step.1, step.2.1, .error err)
      | .ok (status, _) =>
        if status ≠ OtaStatus.ok then
          (step.1, step.2.1, .error (.chunkRejected offset status))
        else
          let rest := send_chunks dev fuel step.1 firmware (offset + chunk_size)
          (rest.1, step.2.1 ++ rest.2.1, rest.2.2)
    else
      (s, [], .ok ())

/-- Send a firmware OTA update (`ota_flash`): reject an empty image
(the `read_firmware_file` check), send OTA_BEGIN with size, digest and
version, stream the chunks, then send OTA_END; any non-OK status or
protocol fault aborts with the corresponding `OtaError`. -/
def ota_flash {σ : Type} (dev : σ → Nat → List Nat → σ × Frame) (s : σ)
    (firmware : List Nat) (sha256 : List Nat) (version : List Nat) :
    σ × List (Nat × List Nat) × Except OtaError Unit :=
  if firmware.length = 0 then
    (s, [], .error .emptyFirmware)
  else
    let begin_payload := serialize_ota_begin firmware.length sha256 version
    let beginStep := send_and_wait_ack dev s .otaBegin begin_payload
    match beginStep.2.2 with
    | .error err => (beginStep.1, beginStep.2.1, .error err)
    | .ok (status, _) =>
      if status ≠ OtaStatus.ok then
        (beginStep.1, beginStep.2.1, .error (.beginRejected status))
      else
        let chunkStep := send_chunks dev firmware.length beginStep.1 firmware 0
        match chunkStep.2.2 with
        | .error err =>
          (chunkStep.1, beginStep.2.1 ++ chunkStep.2.1, .error err)
        | .ok _ =>
          let endStep := send_and_wait_ack dev chunkStep.1 .otaEnd []
          match endStep.2.2 with
          | .error err =>
            (endStep.1, beginStep.2.1 ++ chunkStep.2.1 ++ endStep.2.1,
              .error err)
          | .ok (statusEnd, _) =>
            if statusEnd ≠ OtaStatus.ok then
              (endStep.1, beginStep.2.1 ++ chunkStep.2.1 ++ endStep.2.1,
                .error (.endRejected statusEnd))
            else
              (endStep.1, beginStep.2.1 ++ chunkStep.2.1 ++ endStep.2.1,
                .ok ())

/-! ### Simulated devices and trace observers used by the claims -/

/-- Reply frame `Ack` with status Ok and next offset 0. -/
def ackOkFrame : Frame := { msg_type := 0x04, payload := [0, 0, 0, 0, 0] }

/-- Reply frame `Ack` carrying a given status byte. -/
def ackStatusFrame (status : Nat) : Frame :=
  { msg_type := 0x04, payload := [status, 0, 0, 0, 0] }

/-- Simulated device that acknowledges every message with status Ok. -/
def okDevice : Unit → Nat → List Nat → Unit × Frame :=
  fun _ _ _ => ((), ackOkFrame)

/-- Simulated device that acknowledges with Ok except for the second
Data message, which it rejects with FlashError (status 2); its state
counts the Data messages received. -/
def flashErrorOnSecondChunk : Nat → Nat → List Nat → Nat × Frame :=
  fun s mt _ =>
    if mt = 0x02 then
      (s + 1, if s + 1 = 2 then ackStatusFrame 2 else ackOkFrame)
    else
      (s, ackOkFrame)

/-- Observe a sent message: for a Data message, its offset (first four
payload bytes, little-endian) and the number of raw chunk bytes it
carries (payload minus the 6-byte offset/length header); `none` for any
other message type. -/
def dataInfo (m : Nat × List Nat) : Option (Nat × Nat) :=
  if m.1 = 0x02 then some (fromLE4 (m.2.take 4), m.2.length - 6) else none

/-! ## Arithmetic helper lemmas -/

theorem lor_shiftLeft_eight {a : Nat} (b : Nat) (ha : a < 256) :
    a ||| (b <<< 8) = 2 ^ 8 * b + a := by
  apply Nat.eq_of_testBit_eq
  intro i
  rw [Nat.testBit_lor, Nat.testBit_shiftLeft,
    Nat.testBit_mul_pow_two_add b (show a < 2 ^ 8 by omega) i]
  by_cases hi : i < 8
  · have h8 : ¬ i ≥ 8 := by omega
    simp [hi, h8]
  · have h8 : i ≥ 8 := by omega
    have h2 : (2 : Nat) ^ 8 ≤ 2 ^ i := Nat.pow_le_pow_right (by omega) h8
    have hlt : a < 2 ^ i := by
      norm_num at h2
      omega
    simp [hi, h8, Nat.testBit_lt_two_pow hlt]

/-- Reassembling a 16-bit value from its little-endian bytes with the
decoder's `low ||| (high <<< 8)` recovers the value. -/
theorem le16_lor (n : Nat) (hn : n < 65536) :
    (n % 256) ||| ((n / 256 % 256) <<< 8) = n := by
  have h1 : n / 256 % 256 = n / 256 := Nat.mod_eq_of_lt (by omega)
  rw [h1, lor_shiftLeft_eight _ (Nat.mod_lt _ (by omega))]
  omega

theorem fromLE4_toLE4 (n : Nat) (hn : n < 2 ^ 32) : fromLE4 (toLE4 n) = n := by
  simp [fromLE4, toLE4]
  omega

theorem crcShift_lt {crc : Nat} (h : crc < 2 ^ 32) : crcShift crc < 2 ^ 32 := by
  unfold crcShift
  split
  · exact Nat.xor_lt_two_pow (by omega) (by norm_num)
  · omega

theorem crcShifts_lt (k : Nat) {crc : Nat} (h : crc < 2 ^ 32) :
    crcShifts k crc < 2 ^ 32 := by
  induction k generalizing crc with
  | zero => exact h
  | succ k ih => exact ih (crcShift_lt h)

theorem crcUpdate_lt {data : List Nat} {crc : Nat} (h : crc < 2 ^ 32)
    (hd : ∀ b ∈ data, b < 2 ^ 32) : crcUpdate crc data < 2 ^ 32 := by
  induction data generalizing crc with
  | nil => exact h
  | cons b rest ih =>
    refine ih (crcShifts_lt 8 (Nat.xor_lt_two_pow h ?_)) (fun x hx => hd x (by simp [hx]))
    exact hd b (by simp)

theorem crc32_lt {data : List Nat} (hd : ∀ b ∈ data, b < 2 ^ 32) :
    crc32 data < 2 ^ 32 :=
  Nat.xor_lt_two_pow (crcUpdate_lt (by norm_num) hd) (by norm_num)

/-! ## Claim theorems: decoder basics -/

/-- C10: once the decoder is in `Complete` or `Error`, every `feed_byte`
returns `none` and leaves the decoder unchanged, any further byte
sequence yields no results and no state change, and `reset` restores
exactly the initial `FrameDecoder::new` state. -/
theorem c10_terminal_states_absorb :
    (∀ (d : FrameDecoder) (b : Nat),
      d.state = .complete ∨ d.state = DecoderState.error →
        d.feed_byte b = (d, none)) ∧
    (∀ (d : FrameDecoder) (bs : List Nat),
      d.state = .complete ∨ d.state = DecoderState.error →
        d.feedBytes bs = (d, [])) ∧
    (∀ d : FrameDecoder, d.reset = FrameDecoder.new) := by
  refine ⟨?_, ?_, ?_⟩
  · intro d b h
    rcases h with h | h <;> simp [FrameDecoder.feed_byte, h]
  · intro d bs h
    induction bs with
    | nil => simp [FrameDecoder.feedBytes]
    | cons b rest ih =>
      have hf : d.feed_byte b = (d, none) := by
        rcases h with h | h <;> simp [FrameDecoder.feed_byte, h]
      simp [FrameDecoder.feedBytes, hf, ih]
  · intro d
    rfl

/-- Witness for C10 at concrete terminal decoders. -/
theorem c10_witness :
    ({ FrameDecoder.new with state := .complete } : FrameDecoder).feed_byte 7 =
      ({ FrameDecoder.new with state := .complete }, none) ∧
    ({ FrameDecoder.new with state := DecoderState.error } : FrameDecoder).feedBytes
      [1, 2, 3] = ({ FrameDecoder.new with state := DecoderState.error }, []) ∧
    ({ FrameDecoder.new with state := .complete } : FrameDecoder).reset =
      FrameDecoder.new :=
  ⟨c10_terminal_states_absorb.1 _ 7 (Or.inl rfl),
   c10_terminal_states_absorb.2.1 _ [1, 2, 3] (Or.inr rfl),
   c10_terminal_states_absorb.2.2 _⟩

/-- C5: on the byte completing the 16-bit length field, the decoder
reports an invalid-length fault and enters the `Error` state exactly
when the decoded length is outside `[1, 1025]`; an in-range length
produces no result and advances to `WaitType`, so the fault (when any)
is emitted immediately by that very `feed_byte` call. -/
theorem c5_length_validation (d : FrameDecoder) (b : Nat)
    (h : d.state = .waitLenHigh) :
    (((d.feed_byte b).2 =
        some (.error (.invalidLength (d.length ||| (b <<< 8)))) ∧
      (d.feed_byte b).1.state = DecoderState.error) ↔
      (d.length ||| (b <<< 8) = 0 ∨ d.length ||| (b <<< 8) > 1025)) ∧
    (1 ≤ d.length ||| (b <<< 8) ∧ d.length ||| (b <<< 8) ≤ 1025 →
      (d.feed_byte b).2 = none ∧ (d.feed_byte b).1.state = .waitType) := by
  simp only [FrameDecoder.feed_byte, h, MAX_PAYLOAD_SIZE]
  split
  · rename_i hc
    simp_all
    omega
  · rename_i hc
    push_neg at hc
    simp_all

/-- Witness for C5: a decoder awaiting the length-high byte with low
byte 5 receives high byte 0 — length 5 is in range, no fault,
and the decoder advances to WaitType. -/
theorem c5_witness :
    1 ≤ 5 ||| (0 <<< 8) ∧ 5 ||| (0 <<< 8) ≤ 1025 ∧
    ((⟨.waitLenHigh, 5, 0, [], [0, 0, 0, 0], 0, 0⟩ : FrameDecoder).feed_byte 0).2 = none ∧
    ((⟨.waitLenHigh, 5, 0, [], [0, 0, 0, 0], 0, 0⟩ : FrameDecoder).feed_byte 0).1.state =
      .waitType := by
  refine ⟨by decide, by decide, ?_, ?_⟩
  · exact ((c5_length_validation ⟨.waitLenHigh, 5, 0, [], [0, 0, 0, 0], 0, 0⟩ 0 rfl).2
      ⟨by decide, by decide⟩).1
  · exact ((c5_length_validation ⟨.waitLenHigh, 5, 0, [], [0, 0, 0, 0], 0, 0⟩ 0 rfl).2
      ⟨by decide, by decide⟩).2

/-- C4: `encode_frame` fails exactly on payloads longer than 1024 bytes
(with a size-limit error carrying the length, producing no bytes), and
otherwise produces the 9 + payload-length byte sequence
start-marker, little-endian length `1 + payload.length`, type, payload,
little-endian CRC-32 of type-then-payload. -/
theorem c4_encode_layout (msg_type : Nat) (payload : List Nat) :
    (payload.length > 1024 →
      encode_frame msg_type payload = .error (.payloadTooLarge payload.length)) ∧
    (payload.length ≤ 1024 →
      encode_frame msg_type payload =
        .ok ([START_BYTE_0, START_BYTE_1] ++ toLE2 (1 + payload.length) ++
          [msg_type] ++ payload ++ toLE4 (crc32 (msg_type :: payload))) ∧
      ∀ out, encode_frame msg_type payload = .ok out →
        out.length = 9 + payload.length) := by
  constructor
  · intro h
    simp [encode_frame, MAX_PAYLOAD_SIZE, h]
  · intro h
    have henc : encode_frame msg_type payload =
        .ok ([START_BYTE_0, START_BYTE_1] ++ toLE2 (1 + payload.length) ++
          [msg_type] ++ payload ++ toLE4 (crc32 (msg_type :: payload))) := by
      rw [encode_frame, if_neg (by simp [MAX_PAYLOAD_SIZE]; omega)]
      simp
    refine ⟨henc, fun out hout => ?_⟩
    rw [henc] at hout
    cases hout
    simp [toLE2, toLE4]
    omega

/-- Witness for C4: the oversized side at a 1025-byte payload, the
successful side at the empty payload. -/
theorem c4_witness :
    encode_frame 0x20 (List.replicate 1025 0) =
      .error (.payloadTooLarge (List.replicate 1025 0).length) ∧
    encode_frame 0x20 [] =
      .ok ([START_BYTE_0, START_BYTE_1] ++ toLE2 (1 + ([] : List Nat).length) ++
        [0x20] ++ [] ++ toLE4 (crc32 [0x20])) :=
  ⟨(c4_encode_layout 0x20 (List.replicate 1025 0)).1
      (by rw [List.length_replicate]; omega),
   ((c4_encode_layout 0x20 []).2 (by simp)).1⟩

/-- Unfolding step of `feedBytes` on a cons cell. -/
theorem feedBytes_cons (d : FrameDecoder) (b : Nat) (bs : List Nat) :
    d.feedBytes (b :: bs) =
      (((d.feed_byte b).1.feedBytes bs).1,
        (d.feed_byte b).2.toList ++ ((d.feed_byte b).1.feedBytes bs).2) := rfl

/-- Feeding a concatenation feeds the parts in sequence and
concatenates the produced results. -/
theorem feedBytes_append (d : FrameDecoder) (xs ys : List Nat) :
    d.feedBytes (xs ++ ys) =
      (((d.feedBytes xs).1.feedBytes ys).1,
        (d.feedBytes xs).2 ++ ((d.feedBytes xs).1.feedBytes ys).2) := by
  induction xs generalizing d with
  | nil => simp [FrameDecoder.feedBytes]
  | cons b rest ih =>
    simp [FrameDecoder.feedBytes, ih]

/-- Bytes other than the first start marker leave a fresh decoder
exactly as it was, producing nothing (`WaitStart0` discards them). -/
theorem feedBytes_noise (noise : List Nat) (h : ∀ b ∈ noise, b ≠ START_BYTE_0) :
    FrameDecoder.new.feedBytes noise = (FrameDecoder.new, []) := by
  induction noise with
  | nil => rfl
  | cons b rest ih =>
    have hb : b ≠ START_BYTE_0 := h b (by simp)
    have hstep : FrameDecoder.new.feed_byte b = (FrameDecoder.new, none) := by
      simp [FrameDecoder.feed_byte, FrameDecoder.new, hb]
    simp [FrameDecoder.feedBytes, hstep, ih (fun x hx => h x (by simp [hx]))]

/-- Feeding the five header bytes (start markers, little-endian length
`1 + p.length`, type byte) to a fresh decoder lands in `WaitPayload`
(or directly `WaitCrc` when the payload is empty) with the length and
type recorded. -/
theorem feed_header (t : Nat) (p : List Nat) (hp : p.length ≤ 1024) :
    FrameDecoder.new.feedBytes
        ([START_BYTE_0, START_BYTE_1] ++ toLE2 (1 + p.length) ++ [t]) =
      (⟨if p.length = 0 then .waitCrc else .waitPayload,
        1 + p.length, t, [], [0, 0, 0, 0], 0, 0⟩, []) := by
  have hL : ((1 + p.length) % 256) ||| (((1 + p.length) / 256 % 256) <<< 8) =
      1 + p.length := le16_lor _ (by omega)
  have hcond : ¬ (1025 < 1 + p.length) := by omega
  by_cases hp0 : p.length = 0 <;>
    simp [toLE2, FrameDecoder.feedBytes, FrameDecoder.feed_byte, FrameDecoder.new,
      START_BYTE_0, START_BYTE_1, MAX_PAYLOAD_SIZE, hL, hcond, hp0]

/-- Feeding exactly the remaining payload bytes to a decoder in
`WaitPayload` accumulates them and moves to `WaitCrc`, producing no
results. -/
theorem feed_payload (ys : List Nat) (d : FrameDecoder)
    (hstate : d.state = .waitPayload)
    (hidx : d.payload_index + ys.length = d.length - 1)
    (hne : ys ≠ []) :
    d.feedBytes ys =
      ({ d with
          payload := d.payload ++ ys
          payload_index := d.length - 1
          state := .waitCrc
          crc_index := 0 }, []) := by
  induction ys generalizing d with
  | nil => cases hne rfl
  | cons b rest ih =>
    by_cases hrest : rest = []
    · subst hrest
      have heq : d.payload_index + 1 = d.length - 1 := by
        simpa using hidx
      have hcond : d.payload_index + 1 ≥ d.length - 1 := by omega
      simp [FrameDecoder.feedBytes, FrameDecoder.feed_byte, hstate, hcond, heq]
    · have hr1 : rest.length ≥ 1 := by
        cases rest with
        | nil => exact absurd rfl hrest
        | cons x xs => simp
      have hlen : d.payload_index + (1 + rest.length) = d.length - 1 := by
        simpa [Nat.add_comm, Nat.add_assoc] using hidx
      have hcond : ¬ (d.payload_index + 1 ≥ d.length - 1) := by omega
      rw [feedBytes_cons]
      have hstep : d.feed_byte b =
          ({ d with
              payload := d.payload ++ [b]
              payload_index := d.payload_index + 1 }, none) := by
        simp [FrameDecoder.feed_byte, hstate, hcond]
      rw [hstep]
      rw [ih ({ d with
          payload := d.payload ++ [b]
          payload_index := d.payload_index + 1 }) (by simp [hstate]) (by simp; omega) hrest]
      simp

/-- Feeding the four CRC bytes to a decoder in `WaitCrc` produces
exactly one result: a checksum fault when the received little-endian
CRC differs from the recomputed one, otherwise the decoded frame. -/
theorem feed_crc (d : FrameDecoder) (c0 c1 c2 c3 : Nat)
    (hstate : d.state = .waitCrc) (hidx : d.crc_index = 0)
    (hbytes : d.crc_bytes = [0, 0, 0, 0]) :
    (d.feedBytes [c0, c1, c2, c3]).2 =
      [if fromLE4 [c0, c1, c2, c3] ≠ crc32 ([d.msg_type] ++ d.payload) then
        .error (.crcMismatch (crc32 ([d.msg_type] ++ d.payload))
          (fromLE4 [c0, c1, c2, c3]))
      else
        .ok { msg_type := d.msg_type, payload := d.payload }] := by
  simp [FrameDecoder.feedBytes, FrameDecoder.feed_byte, hstate, hidx, hbytes]
  split <;> simp

/-- Closed form of a successful `encode_frame`. -/
theorem encode_frame_eq (t : Nat) (p : List Nat) (h : p.length ≤ 1024) :
    encode_frame t p =
      .ok ([START_BYTE_0, START_BYTE_1] ++ toLE2 (1 + p.length) ++
        [t] ++ p ++ toLE4 (crc32 (t :: p))) := by
  rw [encode_frame, if_neg (by simp [MAX_PAYLOAD_SIZE]; omega)]
  simp

/-- Decoding a well-formed frame whose CRC field holds arbitrary bytes
`c0..c3`: the decoder runs to the CRC check and produces exactly one
result, decided by comparing the received CRC with the recomputed
one. -/
theorem decode_frame_general (t : Nat) (p : List Nat) (hlen : p.length ≤ 1024)
    (c0 c1 c2 c3 : Nat) :
    (FrameDecoder.new.feedBytes
        ([START_BYTE_0, START_BYTE_1] ++ toLE2 (1 + p.length) ++
          [t] ++ p ++ [c0, c1, c2, c3])).2 =
      [if fromLE4 [c0, c1, c2, c3] ≠ crc32 (t :: p) then
        .error (.crcMismatch (crc32 (t :: p)) (fromLE4 [c0, c1, c2, c3]))
      else
        .ok { msg_type := t, payload := p }] := by
  have hsplit : [START_BYTE_0, START_BYTE_1] ++ toLE2 (1 + p.length) ++
      [t] ++ p ++ [c0, c1, c2, c3] =
      ([START_BYTE_0, START_BYTE_1] ++ toLE2 (1 + p.length) ++ [t]) ++
        (p ++ [c0, c1, c2, c3]) := by
    simp [List.append_assoc]
  rw [hsplit, feedBytes_append, feed_header t p hlen]
  by_cases hp0 : p.length = 0
  · have hpnil : p = [] := List.length_eq_zero.mp hp0
    subst hpnil
    simp only [List.length_nil, if_pos rfl, List.nil_append, List.append_nil, ite_true]
    rw [feed_crc]
    all_goals rfl
  · simp only [if_neg hp0, List.nil_append]
    rw [feedBytes_append]
    rw [feed_payload p
      (⟨.waitPayload, 1 + p.length, t, [], [0, 0, 0, 0], 0, 0⟩ : FrameDecoder)
      rfl (show 0 + p.length = (1 + p.length) - 1 by omega)
      (fun h => hp0 (by simp [h]))]
    simp only [List.nil_append]
    rw [feed_crc]
    all_goals rfl

/-- Decoding an intact encoded frame yields exactly the original
frame. -/
theorem decode_of_encoded (t : Nat) (p : List Nat) (hlen : p.length ≤ 1024)
    (hcrc : crc32 (t :: p) < 2 ^ 32) :
    (FrameDecoder.new.feedBytes
        ([START_BYTE_0, START_BYTE_1] ++ toLE2 (1 + p.length) ++
          [t] ++ p ++ toLE4 (crc32 (t :: p)))).2 =
      [.ok { msg_type := t, payload := p }] := by
  have hrt : fromLE4 (toLE4 (crc32 (t :: p))) = crc32 (t :: p) :=
    fromLE4_toLE4 _ hcrc
  have hg := decode_frame_general t p hlen (crc32 (t :: p) % 256)
    (crc32 (t :: p) / 256 % 256) (crc32 (t :: p) / 65536 % 256)
    (crc32 (t :: p) / 16777216 % 256)
  simp only [toLE4] at hrt ⊢
  rw [hg, if_neg (by simp [hrt])]

/-- The CRC-32 of a type byte followed by payload bytes fits in 32
bits. -/
theorem crc32_frame_lt (t : Nat) (p : List Nat) (ht : t < 256)
    (hbytes : ∀ b ∈ p, b < 256) : crc32 (t :: p) < 2 ^ 32 := by
  refine crc32_lt ?_
  intro b hb
  rcases List.mem_cons.mp hb with h | h
  · subst h
    omega
  · exact lt_trans (hbytes b h) (by norm_num)

/-- C2: round-trip — for every msg_type byte and payload of at most
1024 bytes, encoding succeeds and feeding the encoded bytes one at a
time into a freshly reset decoder produces exactly one result: the
successfully decoded frame with the original msg_type and payload. -/
theorem c2_round_trip (d0 : FrameDecoder) (t : Nat) (p : List Nat)
    (ht : t < 256) (hbytes : ∀ b ∈ p, b < 256) (hlen : p.length ≤ 1024) :
    ∃ bytes, encode_frame t p = .ok bytes ∧
      (d0.reset.feedBytes bytes).2 = [.ok { msg_type := t, payload := p }] := by
  refine ⟨_, encode_frame_eq t p hlen, ?_⟩
  have hr : d0.reset = FrameDecoder.new := rfl
  rw [hr]
  exact decode_of_encoded t p hlen (crc32_frame_lt t p ht hbytes)

/-- Witness for C2 at msg_type 0x21 and payload [1, 2, 3, 4]. -/
theorem c2_witness :
    ∃ bytes, encode_frame 0x21 [1, 2, 3, 4] = .ok bytes ∧
      ((FrameDecoder.new.reset).feedBytes bytes).2 =
        [.ok { msg_type := 0x21, payload := [1, 2, 3, 4] }] :=
  c2_round_trip FrameDecoder.new 0x21 [1, 2, 3, 4] (by decide) (by decide) (by decide)

/-- Setting an index past the first part of a concatenation sets within
the second part. -/
theorem set_append_skip (xs ys : List Nat) (n : Nat) (v : Nat) :
    (xs ++ ys).set (xs.length + n) v = xs ++ ys.set n v := by
  induction xs with
  | nil => simp
  | cons a l ih => simp [Nat.succ_add, ih]

/-- C6: checksum detection — replacing any single byte of the 4-byte
CRC field of an encoded frame by a different byte value and feeding the
modified frame to a fresh decoder yields a checksum-mismatch fault as
the only result (in particular never a successfully decoded frame). -/
theorem c6_crc_corruption (t : Nat) (p : List Nat) (j b : Nat)
    (ht : t < 256) (hbytes : ∀ x ∈ p, x < 256) (hlen : p.length ≤ 1024)
    (hj : j < 4) (hb : b < 256)
    (hdiff : b ≠ (toLE4 (crc32 (t :: p))).getD j 0) :
    ∃ bytes, encode_frame t p = .ok bytes ∧
      (FrameDecoder.new.feedBytes (bytes.set (5 + p.length + j) b)).2 =
        [.error (.crcMismatch (crc32 (t :: p))
          (fromLE4 ((toLE4 (crc32 (t :: p))).set j b)))] := by
  have hcrc : crc32 (t :: p) < 2 ^ 32 := crc32_frame_lt t p ht hbytes
  refine ⟨_, encode_frame_eq t p hlen, ?_⟩
  have hpre : ([START_BYTE_0, START_BYTE_1] ++ toLE2 (1 + p.length) ++ [t] ++ p).length =
      5 + p.length := by
    simp [toLE2]
    omega
  have hset : ([START_BYTE_0, START_BYTE_1] ++ toLE2 (1 + p.length) ++ [t] ++ p ++
      toLE4 (crc32 (t :: p))).set (5 + p.length + j) b =
      [START_BYTE_0, START_BYTE_1] ++ toLE2 (1 + p.length) ++ [t] ++ p ++
        (toLE4 (crc32 (t :: p))).set j b := by
    rw [← hpre, set_append_skip]
  rw [hset]
  set c := crc32 (t :: p) with hc
  have hx0 : c % 256 < 256 := Nat.mod_lt _ (by omega)
  have hx1 : c / 256 % 256 < 256 := Nat.mod_lt _ (by omega)
  have hx2 : c / 65536 % 256 < 256 := Nat.mod_lt _ (by omega)
  have hx3 : c / 16777216 % 256 < 256 := Nat.mod_lt _ (by omega)
  interval_cases j
  · simp only [toLE4, List.set, List.getD_cons_zero, List.getD_cons_succ] at hdiff ⊢
    rw [decode_frame_general t p hlen]
    rw [if_pos]
    simp only [fromLE4, List.getD_cons_zero, List.getD_cons_succ, ne_eq]
    omega
  · simp only [toLE4, List.set, List.getD_cons_zero, List.getD_cons_succ] at hdiff ⊢
    rw [decode_frame_general t p hlen]
    rw [if_pos]
    simp only [fromLE4, List.getD_cons_zero, List.getD_cons_succ, ne_eq]
    omega
  · simp only [toLE4, List.set, List.getD_cons_zero, List.getD_cons_succ] at hdiff ⊢
    rw [decode_frame_general t p hlen]
    rw [if_pos]
    simp only [fromLE4, List.getD_cons_zero, List.getD_cons_succ, ne_eq]
    omega
  · simp only [toLE4, List.set, List.getD_cons_zero, List.getD_cons_succ] at hdiff ⊢
    rw [decode_frame_general t p hlen]
    rw [if_pos]
    simp only [fromLE4, List.getD_cons_zero, List.getD_cons_succ, ne_eq]
    omega

/-- Witness for C6: corrupting the first CRC byte of the frame for
msg_type 0x20, payload [1]. -/
theorem c6_witness :
    ∃ bytes, encode_frame 0x20 [1] = .ok bytes ∧
      (FrameDecoder.new.feedBytes (bytes.set (5 + [1].length + 0) 0)).2 =
        [.error (.crcMismatch (crc32 (0x20 :: [1]))
          (fromLE4 ((toLE4 (crc32 (0x20 :: [1]))).set 0 0)))] :=
  c6_crc_corruption 0x20 [1] 0 0 (by decide) (by decide) (by decide) (by decide)
    (by decide) (by decide)

/-- C7: noise resilience — prefixing a valid encoded frame with any
bytes that are not the start marker leaves a fresh decoder unchanged
with no results and no faults, and the prefixed stream then decodes to
exactly the same single frame as the frame alone. -/
theorem c7_noise_resilience (t : Nat) (p : List Nat) (noise : List Nat)
    (ht : t < 256) (hbytes : ∀ b ∈ p, b < 256) (hlen : p.length ≤ 1024)
    (hn256 : ∀ b ∈ noise, b < 256) (hnm : ∀ b ∈ noise, b ≠ START_BYTE_0) :
    ∃ bytes, encode_frame t p = .ok bytes ∧
      FrameDecoder.new.feedBytes noise = (FrameDecoder.new, []) ∧
      (FrameDecoder.new.feedBytes (noise ++ bytes)).2 =
        (FrameDecoder.new.feedBytes bytes).2 ∧
      (FrameDecoder.new.feedBytes (noise ++ bytes)).2 =
        [.ok { msg_type := t, payload := p }] := by
  refine ⟨_, encode_frame_eq t p hlen, feedBytes_noise noise hnm, ?_, ?_⟩
  · rw [feedBytes_append, feedBytes_noise noise hnm]
    simp
  · rw [feedBytes_append, feedBytes_noise noise hnm]
    simpa using decode_of_encoded t p hlen (crc32_frame_lt t p ht hbytes)

/-- Witness for C7: garbage prefix [0x00, 0xFF, 0x12] before the frame
for msg_type 0x20 with empty payload (the scenario of the Rust unit
test for noise resilience). -/
theorem c7_witness :
    ∃ bytes, encode_frame 0x20 [] = .ok bytes ∧
      FrameDecoder.new.feedBytes [0x00, 0xFF, 0x12] = (FrameDecoder.new, []) ∧
      (FrameDecoder.new.feedBytes ([0x00, 0xFF, 0x12] ++ bytes)).2 =
        (FrameDecoder.new.feedBytes bytes).2 ∧
      (FrameDecoder.new.feedBytes ([0x00, 0xFF, 0x12] ++ bytes)).2 =
        [.ok { msg_type := 0x20, payload := [] }] :=
  c7_noise_resilience 0x20 [] [0x00, 0xFF, 0x12] (by decide) (by decide)
    (by decide) (by decide) (by decide)

/-! ## Claim theorems: OTA engine -/

/-- A `send_and_wait_ack` call sends exactly one message: the given
type and payload. -/
theorem saw_ack_sent {σ : Type} (dev : σ → Nat → List Nat → σ × Frame)
    (s : σ) (mt : OtaMsgType) (pl : List Nat) :
    (send_and_wait_ack dev s mt pl).2.1 = [(mt.toU8, pl)] := by
  unfold send_and_wait_ack
  rcases h : OtaMsgType.from_u8 (dev s mt.toU8 pl).2.msg_type with _ | mtv
  · simp [h]
  · cases mtv <;> simp [h] <;> split <;> simp

/-- The errors `send_and_wait_ack` itself can produce (abort, short
ack, unexpected reply type) never include a chunk rejection; that error
is raised only by the chunk loop's status check. -/
theorem saw_ack_not_chunkRejected {σ : Type} (dev : σ → Nat → List Nat → σ × Frame)
    (s : σ) (mt : OtaMsgType) (pl : List Nat) (o : Nat) (st : OtaStatus) :
    (send_and_wait_ack dev s mt pl).2.2 ≠ .error (.chunkRejected o st) := by
  unfold send_and_wait_ack
  rcases h : OtaMsgType.from_u8 (dev s mt.toU8 pl).2.msg_type with _ | mtv
  · simp [h]
  · cases mtv with
    | otaAck =>
      simp only [h]
      unfold deserialize_ota_ack
      split <;> simp
    | otaAbort =>
      simp only [h]
      unfold deserialize_ota_abort
      split
      · rename_i heq
        split at heq <;> simp_all
      · rename_i heq
        split at heq
        · cases heq
          simp
        · simp_all
    | otaBegin => simp [h]
    | otaData => simp [h]
    | otaEnd => simp [h]

/-- Every message the chunk loop sends is an OTA_DATA message. -/
theorem send_chunks_all_data {σ : Type} (dev : σ → Nat → List Nat → σ × Frame)
    (fuel : Nat) :
    ∀ (s : σ) (firmware : List Nat) (offset : Nat),
      ∀ m ∈ (send_chunks dev fuel s firmware offset).2.1,
        m.1 = OtaMsgType.otaData.toU8 := by
  induction fuel with
  | zero =>
    intro s fw off m hm
    by_cases hlt : off < fw.length <;> simp [send_chunks, hlt] at hm
  | succ fuel ih =>
    intro s fw off m hm
    by_cases hlt : off < fw.length
    · simp only [send_chunks, if_pos hlt] at hm
      split at hm
      · simp only [saw_ack_sent] at hm
        simp at hm
        simp [hm]
      · rename_i status nx heq
        by_cases hst : status = OtaStatus.ok
        · rw [if_neg (by simp [hst])] at hm
          simp only [saw_ack_sent] at hm
          simp at hm
          rcases hm with h | h
          · simp [h]
          · exact ih _ fw _ m h
        · rw [if_pos hst] at hm
          simp only [saw_ack_sent] at hm
          simp at hm
          simp [hm]
    · simp [send_chunks, hlt] at hm

/-- When the chunk loop fails with `chunkRejected offset status`, the
status is not Ok and the last message sent is precisely the Data
message for that offset — no chunk is sent after the rejected one. -/
theorem send_chunks_rejected {σ : Type} (dev : σ → Nat → List Nat → σ × Frame)
    (fuel : Nat) :
    ∀ (s : σ) (firmware : List Nat) (offset o : Nat) (st : OtaStatus),
      (send_chunks dev fuel s firmware offset).2.2 = .error (.chunkRejected o st) →
      st ≠ OtaStatus.ok ∧
      ∃ chunk, ((send_chunks dev fuel s firmware offset).2.1).getLast? =
        some (OtaMsgType.otaData.toU8, serialize_ota_data o chunk) := by
  induction fuel with
  | zero =>
    intro s fw off o st h
    by_cases hlt : off < fw.length <;> simp [send_chunks, hlt] at h
  | succ fuel ih =>
    intro s fw off o st h
    by_cases hlt : off < fw.length
    · simp only [send_chunks, if_pos hlt] at h ⊢
      split at h
      · rename_i err heq
        simp at h
        subst h
        exact absurd heq (saw_ack_not_chunkRejected dev s .otaData _ o st)
      · rename_i status nx heq
        by_cases hst : status = OtaStatus.ok
        · rw [if_neg (by simp [hst])] at h
          rw [if_neg (by simp [hst])]
          obtain ⟨hne, chunk, hlast⟩ := ih _ fw _ o st h
          refine ⟨hne, chunk, ?_⟩
          simp only [saw_ack_sent]
          rw [List.getLast?_append_of_ne_nil]
          · exact hlast
          · intro hnil
            rw [hnil] at hlast
            simp at hlast
        · rw [if_pos hst] at h
          rw [if_pos hst]
          simp only [saw_ack_sent]
          simp at h ⊢
          obtain ⟨ho, hstq⟩ := h
          subst ho
          subst hstq
          exact ⟨hst, _, rfl⟩
    · simp [send_chunks, hlt] at h

/-- Exchange with the always-Ok simulated device. -/
theorem saw_okDevice (s : Unit) (mt : OtaMsgType) (pl : List Nat) :
    send_and_wait_ack okDevice s mt pl = ((), [(mt.toU8, pl)], .ok (OtaStatus.ok, 0)) := by
  simp [send_and_wait_ack, okDevice, ackOkFrame, OtaMsgType.from_u8,
    deserialize_ota_ack, OtaStatus.from_u8, fromLE4]

/-- The flash-error device acknowledges a Begin with Ok and does not
count it. -/
theorem saw_flashDev_begin (s : Nat) (pl : List Nat) :
    send_and_wait_ack flashErrorOnSecondChunk s .otaBegin pl =
      (s, [(OtaMsgType.otaBegin.toU8, pl)], .ok (OtaStatus.ok, 0)) := by
  simp [send_and_wait_ack, flashErrorOnSecondChunk, ackOkFrame, OtaMsgType.toU8,
    OtaMsgType.from_u8, deserialize_ota_ack, OtaStatus.from_u8, fromLE4]

/-- The flash-error device counts Data messages and rejects the second
one with FlashError. -/
theorem saw_flashDev_data (s : Nat) (pl : List Nat) :
    send_and_wait_ack flashErrorOnSecondChunk s .otaData pl =
      (s + 1, [(OtaMsgType.otaData.toU8, pl)],
        .ok (if s + 1 = 2 then OtaStatus.flashError else OtaStatus.ok, 0)) := by
  by_cases h2 : s + 1 = 2 <;>
    simp [send_and_wait_ack, flashErrorOnSecondChunk, ackOkFrame, ackStatusFrame,
      OtaMsgType.toU8, OtaMsgType.from_u8, deserialize_ota_ack, OtaStatus.from_u8,
      fromLE4, h2]

/-- The chunk loop sends nothing once the offset reaches the image
size. -/
theorem send_chunks_done {σ : Type} (dev : σ → Nat → List Nat → σ × Frame)
    (fuel : Nat) (s : σ) (fw : List Nat) (off : Nat) (h : ¬ off < fw.length) :
    send_chunks dev fuel s fw off = (s, [], .ok ()) := by
  cases fuel <;> simp [send_chunks, h]

/-- One iteration of the chunk loop against the always-Ok device. -/
theorem send_chunks_okDevice_succ (fuel : Nat) (fw : List Nat) (off : Nat)
    (h : off < fw.length) :
    send_chunks okDevice (fuel + 1) () fw off =
      ((send_chunks okDevice fuel () fw
          (off + min OTA_CHUNK_SIZE (fw.length - off))).1,
        (OtaMsgType.otaData.toU8, serialize_ota_data off
          ((fw.drop off).take (min OTA_CHUNK_SIZE (fw.length - off)))) ::
          (send_chunks okDevice fuel () fw
            (off + min OTA_CHUNK_SIZE (fw.length - off))).2.1,
        (send_chunks okDevice fuel () fw
          (off + min OTA_CHUNK_SIZE (fw.length - off))).2.2) := by
  simp [send_chunks, h, saw_okDevice]

/-- One accepted iteration of the chunk loop against the flash-error
device (device count not yet reaching the second Data message). -/
theorem send_chunks_flashDev_succ (fuel : Nat) (s : Nat) (fw : List Nat) (off : Nat)
    (h : off < fw.length) (hs : ¬ s + 1 = 2) :
    send_chunks flashErrorOnSecondChunk (fuel + 1) s fw off =
      ((send_chunks flashErrorOnSecondChunk fuel (s + 1) fw
          (off + min OTA_CHUNK_SIZE (fw.length - off))).1,
        (OtaMsgType.otaData.toU8, serialize_ota_data off
          ((fw.drop off).take (min OTA_CHUNK_SIZE (fw.length - off)))) ::
          (send_chunks flashErrorOnSecondChunk fuel (s + 1) fw
            (off + min OTA_CHUNK_SIZE (fw.length - off))).2.1,
        (send_chunks flashErrorOnSecondChunk fuel (s + 1) fw
          (off + min OTA_CHUNK_SIZE (fw.length - off))).2.2) := by
  simp [send_chunks, h, saw_flashDev_data, hs]

/-- The rejecting iteration: with one Data message already counted,
the next chunk is answered with FlashError and the loop stops. -/
theorem send_chunks_flashDev_reject (fuel : Nat) (fw : List Nat) (off : Nat)
    (h : off < fw.length) :
    send_chunks flashErrorOnSecondChunk (fuel + 1) 1 fw off =
      (2, [(OtaMsgType.otaData.toU8, serialize_ota_data off
          ((fw.drop off).take (min OTA_CHUNK_SIZE (fw.length - off))))],
        .error (.chunkRejected off OtaStatus.flashError)) := by
  simp [send_chunks, h, saw_flashDev_data]

/-- Chunk loop on a 2040-byte image, all chunks acknowledged: three
Data messages at offsets 0, 1016, 2032 with 1016, 1016 and 8 bytes. -/
theorem send_chunks_ok_2040 :
    send_chunks okDevice 2040 () (List.replicate 2040 0) 0 =
      ((), [(OtaMsgType.otaData.toU8, serialize_ota_data 0 (List.replicate 1016 0)),
            (OtaMsgType.otaData.toU8, serialize_ota_data 1016 (List.replicate 1016 0)),
            (OtaMsgType.otaData.toU8, serialize_ota_data 2032 (List.replicate 8 0))],
        .ok ()) := by
  rw [show (2040 : Nat) = 2039 + 1 from rfl,
    send_chunks_okDevice_succ 2039 _ 0 (by rw [List.length_replicate]; norm_num)]
  norm_num [OTA_CHUNK_SIZE, List.take_replicate, List.drop_replicate,
    List.length_replicate]
  rw [show (2039 : Nat) = 2038 + 1 from rfl,
    send_chunks_okDevice_succ 2038 _ 1016 (by rw [List.length_replicate]; norm_num)]
  norm_num [OTA_CHUNK_SIZE, List.take_replicate, List.drop_replicate,
    List.length_replicate]
  rw [show (2038 : Nat) = 2037 + 1 from rfl,
    send_chunks_okDevice_succ 2037 _ 2032 (by rw [List.length_replicate]; norm_num)]
  norm_num [OTA_CHUNK_SIZE, List.take_replicate, List.drop_replicate,
    List.length_replicate]
  rw [send_chunks_done _ 2037 _ _ 2040 (by rw [List.length_replicate]; norm_num)]
  simp

/-- Chunk loop on a 1016-byte image: one full-sized Data message. -/
theorem send_chunks_ok_1016 :
    send_chunks okDevice 1016 () (List.replicate 1016 0) 0 =
      ((), [(OtaMsgType.otaData.toU8, serialize_ota_data 0 (List.replicate 1016 0))],
        .ok ()) := by
  rw [show (1016 : Nat) = 1015 + 1 from rfl,
    send_chunks_okDevice_succ 1015 _ 0 (by rw [List.length_replicate]; norm_num)]
  norm_num [OTA_CHUNK_SIZE, List.take_replicate, List.drop_replicate,
    List.length_replicate]
  rw [send_chunks_done _ 1015 _ _ 1016 (by rw [List.length_replicate]; norm_num)]
  simp

/-- Chunk loop on a 2040-byte image against the flash-error device:
two Data messages, then failure carrying offset 1016 and FlashError. -/
theorem send_chunks_flashDev_2040 :
    send_chunks flashErrorOnSecondChunk 2040 0 (List.replicate 2040 0) 0 =
      (2, [(OtaMsgType.otaData.toU8, serialize_ota_data 0 (List.replicate 1016 0)),
           (OtaMsgType.otaData.toU8, serialize_ota_data 1016 (List.replicate 1016 0))],
        .error (.chunkRejected 1016 OtaStatus.flashError)) := by
  rw [show (2040 : Nat) = 2039 + 1 from rfl,
    send_chunks_flashDev_succ 2039 0 _ 0 (by rw [List.length_replicate]; norm_num)
      (by norm_num)]
  norm_num [OTA_CHUNK_SIZE, List.take_replicate, List.drop_replicate,
    List.length_replicate]
  rw [show (2039 : Nat) = 2038 + 1 from rfl,
    send_chunks_flashDev_reject 2038 _ 1016 (by rw [List.length_replicate]; norm_num)]
  norm_num [OTA_CHUNK_SIZE, List.take_replicate, List.drop_replicate,
    List.length_replicate]

/-- Full OTA run on a 2040-byte image with an always-Ok device: one
Begin, three Data messages, one End, success. -/
theorem ota_okDevice_2040 (sha256 version : List Nat) :
    ota_flash okDevice () (List.replicate 2040 0) sha256 version =
      ((), [(OtaMsgType.otaBegin.toU8, serialize_ota_begin 2040 sha256 version),
            (OtaMsgType.otaData.toU8, serialize_ota_data 0 (List.replicate 1016 0)),
            (OtaMsgType.otaData.toU8, serialize_ota_data 1016 (List.replicate 1016 0)),
            (OtaMsgType.otaData.toU8, serialize_ota_data 2032 (List.replicate 8 0)),
            (OtaMsgType.otaEnd.toU8, [])], .ok ()) := by
  simp [-List.reduceReplicate, ota_flash, List.length_replicate, saw_okDevice, send_chunks_ok_2040]

/-- Full OTA run on a 1016-byte image with an always-Ok device. -/
theorem ota_okDevice_1016 (sha256 version : List Nat) :
    ota_flash okDevice () (List.replicate 1016 0) sha256 version =
      ((), [(OtaMsgType.otaBegin.toU8, serialize_ota_begin 1016 sha256 version),
            (OtaMsgType.otaData.toU8, serialize_ota_data 0 (List.replicate 1016 0)),
            (OtaMsgType.otaEnd.toU8, [])], .ok ()) := by
  simp [-List.reduceReplicate, ota_flash, List.length_replicate, saw_okDevice, send_chunks_ok_1016]

/-- Full OTA run on a 2040-byte image against the flash-error device:
Begin, two Data messages, no End, failure at offset 1016. -/
theorem ota_flashDev_2040 (sha256 version : List Nat) :
    ota_flash flashErrorOnSecondChunk 0 (List.replicate 2040 0) sha256 version =
      (2, [(OtaMsgType.otaBegin.toU8, serialize_ota_begin 2040 sha256 version),
           (OtaMsgType.otaData.toU8, serialize_ota_data 0 (List.replicate 1016 0)),
           (OtaMsgType.otaData.toU8, serialize_ota_data 1016 (List.replicate 1016 0))],
        .error (.chunkRejected 1016 OtaStatus.flashError)) := by
  simp [-List.reduceReplicate, ota_flash, List.length_replicate, saw_flashDev_begin, send_chunks_flashDev_2040]

/-- The observer reads back offset and chunk byte count from a Data
message built by `serialize_ota_data`. -/
theorem dataInfo_serialize (off : Nat) (chunk : List Nat) (hoff : off < 2 ^ 32) :
    dataInfo (2, serialize_ota_data off chunk) = some (off, chunk.length) := by
  have hrt := fromLE4_toLE4 off hoff
  simp only [dataInfo, serialize_ota_data, OtaMsgType.toU8, toLE4, toLE2] at hrt ⊢
  simp [hrt]


/-- The observer ignores non-Data messages. -/
theorem dataInfo_not_data (mt : Nat) (pl : List Nat) (h : mt ≠ 2) :
    dataInfo (mt, pl) = none := by
  simp [dataInfo, h]

/-- UTF-8 bytes of the default version string, from
`version.unwrap_or("unknown")` in `ota_flash`. -/
def versionUnknown : List Nat := [0x75, 0x6E, 0x6B, 0x6E, 0x6F, 0x77, 0x6E]

/-- C1 (code-bug evidence): `ota_flash` chunks at the fixed constant
`OTA_CHUNK_SIZE = 1016` and never consults the transport, so a
1016-byte image produces a single 1016-byte Data chunk even though the
BLE transport advertises `max_ota_chunk_size = 400` — contradicting the
spec's requirement to chunk at the channel's advertised bound. -/
theorem c1_chunking_ignores_transport_bound :
    ((ota_flash okDevice () (List.replicate 1016 0) (List.replicate 32 0)
        versionUnknown).2.1.filterMap dataInfo) = [(0, 1016)] ∧
    max_ota_chunk_size TransportKind.serial = 1016 ∧
    max_ota_chunk_size TransportKind.tcp = 1016 ∧
    max_ota_chunk_size TransportKind.ble = 400 ∧
    ¬ 1016 ≤ max_ota_chunk_size TransportKind.ble := by
  have h0 := dataInfo_serialize 0 (List.replicate 1016 0) (by norm_num)
  refine ⟨?_, rfl, rfl, rfl, by decide⟩
  rw [ota_okDevice_1016]
  simp [-List.reduceReplicate, OtaMsgType.toU8, h0,
    dataInfo_not_data 1 _ (by norm_num), dataInfo_not_data 3 _ (by norm_num),
    List.length_replicate]

/-- C3 (amended): on a 2040-byte image with a device that acknowledges
everything with Ok, the engine sends exactly one Begin, then exactly
THREE Data messages with offsets 0, 1016, 2032 and chunk lengths 1016,
1016, 8, then one End, and returns success with 2040 bytes
transferred. -/
theorem c3_ota_transcript (sha256 version : List Nat) :
    ∃ tr, ota_flash okDevice () (List.replicate 2040 0) sha256 version =
        ((), tr, .ok ()) ∧
      tr.map Prod.fst = [OtaMsgType.otaBegin.toU8, OtaMsgType.otaData.toU8,
        OtaMsgType.otaData.toU8, OtaMsgType.otaData.toU8, OtaMsgType.otaEnd.toU8] ∧
      tr.filterMap dataInfo = [(0, 1016), (1016, 1016), (2032, 8)] ∧
      ((tr.filterMap dataInfo).map Prod.snd).sum = 2040 := by
  have h0 := dataInfo_serialize 0 (List.replicate 1016 0) (by norm_num)
  have h1 := dataInfo_serialize 1016 (List.replicate 1016 0) (by norm_num)
  have h2 := dataInfo_serialize 2032 (List.replicate 8 0) (by norm_num)
  refine ⟨_, ota_okDevice_2040 sha256 version,
    by simp [-List.reduceReplicate], ?_, ?_⟩ <;>
    simp [-List.reduceReplicate, OtaMsgType.toU8, h0, h1, h2,
      dataInfo_not_data 1 _ (by norm_num), dataInfo_not_data 3 _ (by norm_num),
      List.length_replicate]

/-- C3 counterexample: at the claim's own input (2040-byte image,
all-Ok device) the engine sends three Data messages, not the claimed
two with offsets 0, 1016 and lengths 1016, 1024 — a second 1024-byte
chunk is impossible when every chunk is capped at 1016 bytes. -/
theorem c3_counterexample :
    ((ota_flash okDevice () (List.replicate 2040 0) (List.replicate 32 0)
        versionUnknown).2.1.filterMap dataInfo) =
      [(0, 1016), (1016, 1016), (2032, 8)] ∧
    ((ota_flash okDevice () (List.replicate 2040 0) (List.replicate 32 0)
        versionUnknown).2.1.filterMap dataInfo) ≠ [(0, 1016), (1016, 1024)] := by
  have h0 := dataInfo_serialize 0 (List.replicate 1016 0) (by norm_num)
  have h1 := dataInfo_serialize 1016 (List.replicate 1016 0) (by norm_num)
  have h2 := dataInfo_serialize 2032 (List.replicate 8 0) (by norm_num)
  have htr : ((ota_flash okDevice () (List.replicate 2040 0) (List.replicate 32 0)
      versionUnknown).2.1.filterMap dataInfo) =
      [(0, 1016), (1016, 1016), (2032, 8)] := by
    rw [ota_okDevice_2040]
    simp [-List.reduceReplicate, OtaMsgType.toU8, h0, h1, h2,
      dataInfo_not_data 1 _ (by norm_num), dataInfo_not_data 3 _ (by norm_num),
      List.length_replicate]
  exact ⟨htr, by rw [htr]; decide⟩

/-- C8: if the device rejects a Data chunk (an Ack with a non-Ok
status), `ota_flash` fails with that chunk's offset and the device's
status, the rejected Data message is the last message sent (no further
Data), and no End message appears in the trace; in particular the
simulated device rejecting the second chunk with FlashError yields a
failure carrying offset 1016 and status FlashError after messages
Begin, Data, Data only. -/
theorem c8_abort_propagation :
    (∀ (σ : Type) (dev : σ → Nat → List Nat → σ × Frame) (s : σ)
      (firmware sha256 version : List Nat) (o : Nat) (st : OtaStatus),
      (ota_flash dev s firmware sha256 version).2.2 =
        .error (.chunkRejected o st) →
      st ≠ OtaStatus.ok ∧
      (∀ pl, (OtaMsgType.otaEnd.toU8, pl) ∉
        (ota_flash dev s firmware sha256 version).2.1) ∧
      (∃ chunk, ((ota_flash dev s firmware sha256 version).2.1).getLast? =
        some (OtaMsgType.otaData.toU8, serialize_ota_data o chunk))) ∧
    (ota_flash flashErrorOnSecondChunk 0 (List.replicate 2040 0)
      (List.replicate 32 0) versionUnknown).2.2 =
      .error (.chunkRejected 1016 .flashError) ∧
    ((ota_flash flashErrorOnSecondChunk 0 (List.replicate 2040 0)
      (List.replicate 32 0) versionUnknown).2.1.map Prod.fst) =
      [0x01, 0x02, 0x02] := by
  refine ⟨?_, by rw [ota_flashDev_2040],
    by rw [ota_flashDev_2040]; simp [-List.reduceReplicate, OtaMsgType.toU8]⟩
  intro σ dev s firmware sha256 version o st h
  by_cases hfw : firmware.length = 0
  · simp [ota_flash, hfw] at h
  · simp only [ota_flash, if_neg hfw] at h ⊢
    split at h
    · rename_i err heq
      simp at h
      subst h
      exact absurd heq (saw_ack_not_chunkRejected dev s .otaBegin _ o st)
    · rename_i status nx heq
      by_cases hbst : status = OtaStatus.ok
      · rw [if_neg (by simp [hbst])] at h ⊢
        split at h
        · rename_i err heq2
          simp at h
          subst h
          obtain ⟨hne, chunk, hlast⟩ :=
            send_chunks_rejected dev firmware.length _ firmware 0 o st heq2
          have htrne : (send_chunks dev firmware.length
              (send_and_wait_ack dev s .otaBegin
                (serialize_ota_begin firmware.length sha256 version)).1
              firmware 0).2.1 ≠ [] := by
            intro hnil
            rw [hnil] at hlast
            simp at hlast
          refine ⟨hne, ?_, ?_⟩
          · intro pl hmem
            simp only [saw_ack_sent] at hmem
            rcases List.mem_append.mp hmem with hm | hm
            · simp [OtaMsgType.toU8] at hm
            · have := send_chunks_all_data dev firmware.length _ firmware 0 _ hm
              simp [OtaMsgType.toU8] at this
          · refine ⟨chunk, ?_⟩
            simp only [saw_ack_sent]
            rw [List.getLast?_append_of_ne_nil]
            · exact hlast
            · exact htrne
        · rename_i u heq2
          split at h
          · rename_i err heq3
            simp at h
            subst h
            exact absurd heq3 (saw_ack_not_chunkRejected dev _ .otaEnd _ o st)
          · rename_i st2 nx2 heq3
            by_cases hest : st2 = OtaStatus.ok
            · rw [if_neg (by simp [hest])] at h
              simp at h
            · rw [if_pos hest] at h
              simp at h
      · rw [if_pos hbst] at h
        simp at h

/-- Witness for C8's general part at the concrete flash-error run. -/
theorem c8_witness :
    OtaStatus.flashError ≠ OtaStatus.ok ∧
    (∀ pl, (OtaMsgType.otaEnd.toU8, pl) ∉
      (ota_flash flashErrorOnSecondChunk 0 (List.replicate 2040 0)
        (List.replicate 32 0) versionUnknown).2.1) ∧
    (∃ chunk, ((ota_flash flashErrorOnSecondChunk 0 (List.replicate 2040 0)
        (List.replicate 32 0) versionUnknown).2.1).getLast? =
      some (OtaMsgType.otaData.toU8, serialize_ota_data 1016 chunk)) :=
  c8_abort_propagation.1 Nat flashErrorOnSecondChunk 0 (List.replicate 2040 0)
    (List.replicate 32 0) versionUnknown 1016 .flashError
    (by rw [ota_flashDev_2040])

/-- C9 counterexample: for a 32-byte version string of 0x01 bytes, the
version field of the Begin payload is the first 31 bytes followed by a
null — not the version string truncated to 32 bytes as the claim
states. -/
theorem c9_counterexample :
    (serialize_ota_begin 0 (List.replicate 32 0) (List.replicate 32 1)).drop 36 =
      List.replicate 31 1 ++ [0] ∧
    (serialize_ota_begin 0 (List.replicate 32 0) (List.replicate 32 1)).drop 36 ≠
      (List.replicate 32 1).take 32 := by
  constructor <;> decide

/-- C9 (amended): the Begin payload is exactly 68 bytes — the 4-byte
little-endian image size, the 32-byte digest, then the version string
truncated to at most 31 bytes and null-padded to 32 bytes (the field
always ends in a null terminator). -/
theorem c9_begin_payload_layout (firmware_size : Nat) (sha256 version : List Nat)
    (hd : sha256.length = 32) :
    (serialize_ota_begin firmware_size sha256 version).length = 68 ∧
    serialize_ota_begin firmware_size sha256 version =
      toLE4 firmware_size ++ sha256 ++
        (version.take (min version.length 31) ++
          List.replicate (32 - min version.length 31) 0) := by
  constructor
  · simp [serialize_ota_begin, toLE4, VERSION_MAX_LEN, hd]
  · simp [serialize_ota_begin, VERSION_MAX_LEN]

/-- Witness for C9 at size 2040, a 32-byte digest and version
"1.2". -/
theorem c9_witness :
    (serialize_ota_begin 2040 (List.replicate 32 0) [0x31, 0x2E, 0x32]).length = 68 ∧
    serialize_ota_begin 2040 (List.replicate 32 0) [0x31, 0x2E, 0x32] =
      toLE4 2040 ++ List.replicate 32 0 ++
        (([0x31, 0x2E, 0x32] : List Nat).take (min ([0x31, 0x2E, 0x32] : List Nat).length 31) ++
          List.replicate (32 - min ([0x31, 0x2E, 0x32] : List Nat).length 31) 0) :=
  c9_begin_payload_layout 2040 (List.replicate 32 0) [0x31, 0x2E, 0x32] (by decide)

end Domes
